import Mathlib

/-!
Shallow embedding of wrapanapi/systems/scvmm.py (SCVM and SCVMMSystem classes)
and proofs about it.

The module issues PowerShell commands to an SCVMM manager over a remote
session and parses the replies.  The embedding models:
  * the VM state enumeration and the status-string table (SCVM.state_map,
    SCVMMSystem.STATE_* constants),
  * the typed-property scalar coercion SCVMMSystem.parse_data,
  * the remote execution wrapper SCVMMSystem.run_script,
  * the lifecycle operations of SCVM (_do_vm, start, stop, restart, suspend,
    delete, rename) and of SCVMMSystem (deploy_template, delete_template,
    does_template_exist, disconnect_dvd_drives).

Python string primitives (str.lower, str.strip, str.startswith, int) are
embedded as explicit functions over character lists so that every definition
evaluates by kernel reduction.  Remote effects are modelled by oracles: a
transport oracle mapping a script to its result, a poll oracle giving the
sequence of observed VM statuses, and a presence oracle for DVD drives.
Issued remote commands are recorded in traces.  Methods of the base entity
classes (ensure_state, the status mapper fallback, wait_vm_running) are not
part of this repository; they are modelled from the specification and marked
as such in their doc comments.
-/

namespace Scvmm

/-- Python str.lower on one character, restricted to ASCII (the status and
type tags handled by the module are ASCII). -/
def pyLowerChar (c : Char) : Char :=
  if 'A' ≤ c ∧ c ≤ 'Z' then Char.ofNat (c.toNat + 32) else c

/-- Python str.lower. -/
def pyLower (s : String) : String :=
  String.mk (s.toList.map pyLowerChar)

/-- Python treats these characters as whitespace for str.strip. -/
def pyIsSpace (c : Char) : Bool :=
  c = ' ' ∨ c = '\t' ∨ c = '\n' ∨ c = '\r'

/-- Python str.strip with no argument: drop leading and trailing
whitespace. -/
def pyStrip (s : String) : String :=
  String.mk (((s.toList.dropWhile pyIsSpace).reverse.dropWhile pyIsSpace).reverse)

/-- Python str.startswith. -/
def pyStartswith (s pre : String) : Bool :=
  pre.toList.isPrefixOf s.toList

/-- The Python builtin int applied to a string: strips surrounding
whitespace, accepts an optional sign followed by at least one digit, and
raises ValueError (here: Option.none) otherwise. -/
def pyInt (s : String) : Option Int :=
  let cs := (pyStrip s).toList
  let signAndDigits : Int × List Char :=
    match cs with
    | '-' :: rest => (-1, rest)
    | '+' :: rest => (1, rest)
    | _ => (1, cs)
  match signAndDigits with
  | (sign, ds) =>
    if ds ≠ [] ∧ ds.all Char.isDigit then
      some (sign * Int.ofNat (ds.foldl (fun a c => a * 10 + (c.toNat - 48)) 0))
    else Option.none

/-- The canonical VM state enumeration.  Modelled from the spec: the closed
set RUNNING, STOPPED, PAUSED, ERROR, UNKNOWN of the entities module, which is
not part of this repository. -/
inductive VmState where
  | RUNNING
  | STOPPED
  | PAUSED
  | ERROR
  | UNKNOWN
deriving DecidableEq, Repr

/-- SCVM.state_map (scvmm.py lines 43 to 51): the table from manager status
strings to canonical states.  Note that the key "Stopped" is absent. -/
def state_map : List (String × VmState) :=
  [("Running", VmState.RUNNING),
   ("PowerOff", VmState.STOPPED),
   ("Paused", VmState.PAUSED),
   ("Missing", VmState.ERROR),
   ("Creation Failed", VmState.ERROR)]

/-- First value bound to the given key in an association list. -/
def lookupStatus : List (String × VmState) → String → Option VmState
  | [], _ => Option.none
  | (k, v) :: rest, s => if s = k then some v else lookupStatus rest s

/-- Modelled from the spec: the base entity class (not in this repository)
maps a raw status string through state_map and absorbs unrecognized strings
into UNKNOWN rather than raising. -/
def mapStatus (s : String) : VmState :=
  (lookupStatus state_map s).getD VmState.UNKNOWN

/-- SCVMMSystem.STATE_RUNNING (scvmm.py line 134). -/
def STATE_RUNNING : String := "Running"

/-- SCVMMSystem.STATES_STOPPED (scvmm.py line 135): the raw status strings the
module itself declares to be stopped states. -/
def STATES_STOPPED : List String := ["PowerOff", "Stopped"]

/-- SCVMMSystem.STATE_PAUSED (scvmm.py line 136). -/
def STATE_PAUSED : String := "Paused"

/-- SCVMMSystem.STATES_STEADY (scvmm.py lines 137 to 138). -/
def STATES_STEADY : List String := [STATE_RUNNING, STATE_PAUSED] ++ STATES_STOPPED

/-- A Python scalar value as produced by SCVMMSystem.parse_data: None, a
boolean, an integer, or a string. -/
inductive PyVal where
  | none
  | bool (b : Bool)
  | int (n : Int)
  | str (s : String)
deriving DecidableEq, Repr

/-- SCVMMSystem.parse_data (scvmm.py lines 434 to 443), translated branch by
branch.  The Python function has no final else: when every branch misses, it
falls off the end and returns None.  The integer branch calls int(data),
which can raise ValueError; that is the only failing path. -/
def parse_data (t : String) (data : Option String) : Except String PyVal :=
  match data with
  | Option.none => Except.ok PyVal.none
  | some d =>
    if t = "System.Boolean" then
      Except.ok (PyVal.bool (pyStrip (pyLower d) = "true"))
    else if pyStartswith t "System.Int" then
      match pyInt d with
      | some n => Except.ok (PyVal.int n)
      | Option.none => Except.error "ValueError"
    else if t = "System.String" ∧ pyStrip (pyLower d) = "none" then
      Except.ok PyVal.none
    else
      Except.ok PyVal.none

/-- The result record of one remote PowerShell execution, as returned by the
winrm session: exit status, standard output, standard error. -/
structure PSResult where
  status_code : Int
  std_out : String
  std_err : String

/-- Errors raised by the embedded operations.  PowerShellScriptError is the
single exception class of scvmm.py (line 473); TimeoutError models the
timeout failure of the wait-for machinery of the missing base classes. -/
inductive Err where
  | PowerShellScriptError (msg : String)
  | TimeoutError
deriving DecidableEq, Repr

/-- SCVMMSystem.run_script (scvmm.py lines 169 to 177), applied to the result
the transport returned for the script: raises PowerShellScriptError carrying
the status code and standard error when the status code is nonzero, and
otherwise returns the stripped standard output. -/
def run_script (r : PSResult) : Except Err String :=
  if r.status_code ≠ 0 then
    Except.error (Err.PowerShellScriptError
      ("Script returned " ++ toString r.status_code ++ "!: " ++ r.std_err))
  else
    Except.ok (pyStrip r.std_out)

/-- Remote actions issued by the SCVM lifecycle methods. -/
inductive Act where
  | stopA
  | removeA
  | setNameA (n : String)
  | refreshA
deriving DecidableEq, Repr

/-- One issued remote action together with the mapped state of the VM at the
moment the action was issued. -/
structure Issued where
  act : Act
  stateAt : VmState
deriving DecidableEq, Repr

/-- Whether some poll within the budget observes the STOPPED state. -/
def reachesStopped (poll : Nat → VmState) : Nat → Bool
  | 0 => false
  | f + 1 =>
    if poll 0 = VmState.STOPPED then true
    else reachesStopped (fun i => poll (i + 1)) f

/-- Modelled from the spec: ensure_state(VmState.STOPPED) of the base entity
class, which is not part of this repository.  If the mapped state is already
STOPPED it does nothing; otherwise it issues the stop action and blocks,
polling, until the mapped state is STOPPED, failing with TimeoutError when
the poll budget ends without reaching it. -/
def ensure_state_stopped (cur : VmState) (poll : Nat → VmState) (fuel : Nat) :
    List Issued × Except Err VmState :=
  if cur = VmState.STOPPED then ([], Except.ok VmState.STOPPED)
  else if reachesStopped poll fuel then
    ([⟨Act.stopA, cur⟩], Except.ok VmState.STOPPED)
  else
    ([⟨Act.stopA, cur⟩], Except.error Err.TimeoutError)

/-- SCVM.delete (scvmm.py lines 87 to 90): ensure_state(STOPPED), then the
Remove action through _do_vm, which returns True. -/
def SCVM_delete (cur : VmState) (poll : Nat → VmState) (fuel : Nat) :
    List Issued × Except Err Bool :=
  match ensure_state_stopped cur poll fuel with
  | (tr, Except.error e) => (tr, Except.error e)
  | (tr, Except.ok st) => (tr ++ [⟨Act.removeA, st⟩], Except.ok true)

/-- SCVM.rename (scvmm.py lines 95 to 101): ensure_state(STOPPED), then the
Set action with the new name through _do_vm, the name field update, and a
refresh of the cached details (the refresh comes from the missing base
class). -/
def SCVM_rename (cur : VmState) (poll : Nat → VmState) (fuel : Nat)
    (newName : String) : List Issued × Except Err String :=
  match ensure_state_stopped cur poll fuel with
  | (tr, Except.error e) => (tr, Except.error e)
  | (tr, Except.ok st) =>
    (tr ++ [⟨Act.setNameA newName, st⟩, ⟨Act.refreshA, st⟩], Except.ok newName)

/-- The script text SCVM._do_vm builds and strips (scvmm.py lines 65 to
70). -/
def do_vm_script (name action params : String) : String :=
  pyStrip ("Get-SCVirtualMachine -Name \"" ++ name
    ++ "\" -VMMServer $scvmm_server | " ++ action ++ "-SCVirtualMachine " ++ params)

/-- SCVM._do_vm (scvmm.py lines 65 to 70) over a transport oracle: run the
action script through run_script, discard its output, and return True. -/
def do_vm (exec : String → PSResult) (name action params : String) :
    Except Err Bool :=
  match run_script (exec (do_vm_script name action params)) with
  | Except.error e => Except.error e
  | Except.ok _ => Except.ok true

/-- SCVM.start (scvmm.py lines 72 to 76); is_suspended comes from the missing
base class and is modelled from the spec as a flag telling whether the
current state is PAUSED. -/
def SCVM_start (exec : String → PSResult) (name : String) (isSuspended : Bool) :
    Except Err Bool :=
  if isSuspended then do_vm exec name "Resume" ""
  else do_vm exec name "Start" ""

/-- SCVM.stop (scvmm.py lines 78 to 79). -/
def SCVM_stop (exec : String → PSResult) (name : String) (graceful : Bool) :
    Except Err Bool :=
  do_vm exec name "Stop" (if graceful then "-Shutdown" else "-Force")

/-- SCVM.restart (scvmm.py lines 81 to 82). -/
def SCVM_restart (exec : String → PSResult) (name : String) : Except Err Bool :=
  do_vm exec name "Reset" ""

/-- SCVM.suspend (scvmm.py lines 84 to 85). -/
def SCVM_suspend (exec : String → PSResult) (name : String) : Except Err Bool :=
  do_vm exec name "Suspend" ""

/-- Remote commands issued by the template and deployment operations of
SCVMMSystem, abstracted from their PowerShell script texts. -/
inductive RCmd where
  | getTemplate (t : String)
  | createVM (t hg vm : String) (cpu ram : Nat)
  | enableGuestServices (vm : String)
  | startVM (vm : String)
  | pollState (vm : String)
  | readVM (vm : String)
  | removeTemplate (t : String) (force : Bool)
  | refreshLibrary
  | getVMData (vm : String)
  | removeDVD (vm : String)
deriving DecidableEq, Repr

/-- Whether a command mutates remote state.  Lookups, status polls and the
data query are read-only; Read-SCVirtualMachine only refreshes the cached
view of the manager. -/
def mutating : RCmd → Bool
  | RCmd.getTemplate _ => false
  | RCmd.pollState _ => false
  | RCmd.readVM _ => false
  | RCmd.getVMData _ => false
  | _ => true

/-- Whether a command is the VM creation command. -/
def isCreate : RCmd → Bool
  | RCmd.createVM _ _ _ _ _ => true
  | _ => false

/-- Whether a command is the DVD drive removal command. -/
def isRemoveDVD : RCmd → Bool
  | RCmd.removeDVD _ => true
  | _ => false

/-- SCVMMSystem.does_template_exist (scvmm.py lines 307 to 310) over a
transport oracle giving the reply of the template lookup: true iff the
stripped reply is non-empty. -/
def does_template_exist (lookup : String → String) (t : String) : Bool :=
  decide (pyStrip (lookup t) ≠ "")

/-- The keyword arguments of deploy_template with their defaults (scvmm.py
lines 317 to 319): timeout 900, cpu 0, ram 0 (a zero cpu or ram means no
override is appended to the script). -/
structure DeployKw where
  timeout : Nat
  cpu : Nat
  ram : Nat

/-- Modelled from the spec: wait_vm_running of the missing base mixin polls
the VM status until the mapped state is RUNNING, failing with TimeoutError
when the poll budget ends without observing it.  Returns the issued poll
commands and the outcome. -/
def wait_vm_running (vm : String) (statuses : Nat → String) :
    Nat → List RCmd × Except Err Unit
  | 0 => ([], Except.error Err.TimeoutError)
  | f + 1 =>
    if mapStatus (statuses 0) = VmState.RUNNING then
      ([RCmd.pollState vm], Except.ok ())
    else
      let r := wait_vm_running vm (fun i => statuses (i + 1)) f
      (RCmd.pollState vm :: r.1, r.2)

/-- Modelled from the spec: the deploy precondition failure
TemplateNotFoundError.  The source realises it as its PowerShellScriptError
class carrying this message (scvmm.py line 315). -/
def TemplateNotFoundError (t : String) : Err :=
  Err.PowerShellScriptError ("Template " ++ t ++ " does not exist")

/-- SCVMMSystem.deploy_template (scvmm.py lines 312 to 341) over a lookup
oracle for the existence check and a poll oracle for the status wait: check
the template exists (else raise before any mutating command), issue the one
creation script, enable the guest integration service, start the VM, wait
until RUNNING within the timeout, refresh the cached view of the manager,
and return the VM name.  enable_virtual_services, start_vm and
wait_vm_running live in classes missing from this repository and are
modelled from the spec as single remote commands respectively the poll
loop. -/
def deploy_template (lookup : String → String) (statuses : Nat → String)
    (template host_group vm_name : String) (kw : DeployKw) :
    List RCmd × Except Err String :=
  if does_template_exist lookup template = false then
    ([RCmd.getTemplate template], Except.error (TemplateNotFoundError template))
  else
    let tr0 := [RCmd.getTemplate template,
                RCmd.createVM template host_group vm_name kw.cpu kw.ram,
                RCmd.enableGuestServices vm_name,
                RCmd.startVM vm_name]
    let w := wait_vm_running vm_name statuses kw.timeout
    match w.2 with
    | Except.error e => (tr0 ++ w.1, Except.error e)
    | Except.ok _ => (tr0 ++ w.1 ++ [RCmd.readVM vm_name], Except.ok vm_name)

/-- SCVMMSystem.delete_template (scvmm.py lines 182 to 192) over the lookup
oracle: when the template exists, issue the forced removal and then the
library refresh (update_scvmm_library, lines 362 to 369); otherwise only log
and issue nothing beyond the existence lookup. -/
def delete_template (lookup : String → String) (t : String) : List RCmd :=
  if does_template_exist lookup t then
    [RCmd.getTemplate t, RCmd.removeTemplate t true, RCmd.refreshLibrary]
  else
    [RCmd.getTemplate t]

/-- SCVMMSystem.disconnect_dvd_drives (scvmm.py lines 413 to 423) over a
presence oracle: present k tells whether the k-th data query still reports a
DVD drive.  Each iteration issues the data query and, when a drive remains,
one removal command; the loop exits only when a query reports no drive, and
the source imposes no iteration bound, so the embedding uses explicit fuel:
Option.none means the fuel ended with the loop still running.  On exit the
function returns the trace and the number of removals, mirroring the
number_dvds_disconnected counter. -/
def disconnect_dvd_drives (vm : String) (present : Nat → Bool) (k : Nat) :
    Nat → Option (List RCmd × Nat)
  | 0 => Option.none
  | f + 1 =>
    if present k then
      (disconnect_dvd_drives vm present (k + 1) f).map
        (fun r => (RCmd.getVMData vm :: RCmd.removeDVD vm :: r.1, r.2))
    else
      some ([RCmd.getVMData vm], k)

end Scvmm

namespace Scvmm

/-- Claim C1 (code bug evidence): evaluating parse_data on String-tagged
leaves.  The code returns None for the empty string, for ordinary text, and
for the none sentinel alike, because the Python function has no final else
and falls through to an implicit return None; the claim (and the explicit
sentinel branch of the code itself, which is dead under this fallthrough)
says non-sentinel strings pass through unchanged. -/
theorem parse_data_string_fallthrough :
    parse_data "System.String" (some "") = Except.ok PyVal.none ∧
    parse_data "System.String" (some "abc") = Except.ok PyVal.none ∧
    parse_data "System.String" (some " None ") = Except.ok PyVal.none := by
  refine ⟨?_, ?_, ?_⟩ <;> rfl

/-- Claim C2 (code bug evidence): the status string "Stopped" is not a key of
state_map, so the mapper sends it to UNKNOWN, although the module declares
"Stopped" to be a stopped state in its own STATES_STOPPED constant (and the
claim says it maps to STOPPED). -/
theorem mapStatus_Stopped_unknown :
    mapStatus "Stopped" = VmState.UNKNOWN ∧ "Stopped" ∈ STATES_STOPPED := by
  exact ⟨by decide, by decide⟩

/-- Claim C9: for every leaf whose declared type tag is outside the handled
set (not System.Boolean, not an integer-family System.Int* type, and not a
System.String whose trimmed lower-cased text is the none sentinel) and whose
text is present, parse_data returns None rather than raising or passing the
text through. -/
theorem parse_data_unhandled_is_none (t d : String)
    (hb : t ≠ "System.Boolean")
    (hi : pyStartswith t "System.Int" = false)
    (hs : ¬ (t = "System.String" ∧ pyStrip (pyLower d) = "none")) :
    parse_data t (some d) = Except.ok PyVal.none := by
  simp only [parse_data, hi, if_neg hb, Bool.false_eq_true, if_false, if_neg hs]

/-- Witness for C9: a date-typed field and a GUID-typed field both coerce to
None. -/
theorem parse_data_unhandled_is_none_witness :
    parse_data "System.DateTime" (some "4/23/2014 10:57:56 AM") =
      Except.ok PyVal.none ∧
    parse_data "System.Guid" (some "1f85bf2d") = Except.ok PyVal.none := by
  constructor
  · exact parse_data_unhandled_is_none "System.DateTime" "4/23/2014 10:57:56 AM"
      (by decide) (by rfl) (by decide)
  · exact parse_data_unhandled_is_none "System.Guid" "1f85bf2d"
      (by decide) (by rfl) (by decide)

/-- Claim C6: run_script fails with PowerShellScriptError carrying the exit
code and the error output exactly when the exit code is nonzero, and on a
zero exit code returns the standard output with surrounding whitespace
stripped. -/
theorem run_script_spec (r : PSResult) :
    (r.status_code ≠ 0 →
      run_script r = Except.error (Err.PowerShellScriptError
        ("Script returned " ++ toString r.status_code ++ "!: " ++ r.std_err))) ∧
    (r.status_code = 0 → run_script r = Except.ok (pyStrip r.std_out)) := by
  constructor
  · intro h
    unfold run_script
    rw [if_pos h]
  · intro h
    unfold run_script
    rw [if_neg (by simp [h])]

/-- Witness for C6: a failing execution surfaces the code and stderr, and a
succeeding one returns trimmed stdout. -/
theorem run_script_spec_witness :
    run_script ⟨1, "out", "err"⟩ =
      Except.error (Err.PowerShellScriptError "Script returned 1!: err") ∧
    run_script ⟨0, "  hello  ", ""⟩ = Except.ok "hello" := by
  constructor
  · exact (run_script_spec ⟨1, "out", "err"⟩).1 (by decide)
  · exact ((run_script_spec ⟨0, "  hello  ", ""⟩).2 rfl).trans
      (congrArg Except.ok (by decide))

/-- The three possible shapes of a delete run: already stopped, stopped after
a stop-and-wait, or timed out waiting. -/
theorem SCVM_delete_shape (cur : VmState) (poll : Nat → VmState) (fuel : Nat) :
    (cur = VmState.STOPPED ∧ SCVM_delete cur poll fuel =
      ([⟨Act.removeA, VmState.STOPPED⟩], Except.ok true)) ∨
    (cur ≠ VmState.STOPPED ∧ reachesStopped poll fuel = true ∧
      SCVM_delete cur poll fuel =
        ([⟨Act.stopA, cur⟩, ⟨Act.removeA, VmState.STOPPED⟩], Except.ok true)) ∨
    (cur ≠ VmState.STOPPED ∧ reachesStopped poll fuel = false ∧
      SCVM_delete cur poll fuel =
        ([⟨Act.stopA, cur⟩], Except.error Err.TimeoutError)) := by
  by_cases hc : cur = VmState.STOPPED
  · exact Or.inl ⟨hc, by simp [SCVM_delete, ensure_state_stopped, hc]⟩
  · by_cases hr : reachesStopped poll fuel = true
    · exact Or.inr (Or.inl ⟨hc, hr,
        by simp [SCVM_delete, ensure_state_stopped, hc, hr]⟩)
    · exact Or.inr (Or.inr ⟨hc, by simpa using hr,
        by simp [SCVM_delete, ensure_state_stopped, hc, hr]⟩)

/-- The three possible shapes of a rename run. -/
theorem SCVM_rename_shape (cur : VmState) (poll : Nat → VmState) (fuel : Nat)
    (newName : String) :
    (cur = VmState.STOPPED ∧ SCVM_rename cur poll fuel newName =
      ([⟨Act.setNameA newName, VmState.STOPPED⟩, ⟨Act.refreshA, VmState.STOPPED⟩],
        Except.ok newName)) ∨
    (cur ≠ VmState.STOPPED ∧ reachesStopped poll fuel = true ∧
      SCVM_rename cur poll fuel newName =
        ([⟨Act.stopA, cur⟩, ⟨Act.setNameA newName, VmState.STOPPED⟩,
          ⟨Act.refreshA, VmState.STOPPED⟩], Except.ok newName)) ∨
    (cur ≠ VmState.STOPPED ∧ reachesStopped poll fuel = false ∧
      SCVM_rename cur poll fuel newName =
        ([⟨Act.stopA, cur⟩], Except.error Err.TimeoutError)) := by
  by_cases hc : cur = VmState.STOPPED
  · exact Or.inl ⟨hc, by simp [SCVM_rename, ensure_state_stopped, hc]⟩
  · by_cases hr : reachesStopped poll fuel = true
    · exact Or.inr (Or.inl ⟨hc, hr,
        by simp [SCVM_rename, ensure_state_stopped, hc, hr]⟩)
    · exact Or.inr (Or.inr ⟨hc, by simpa using hr,
        by simp [SCVM_rename, ensure_state_stopped, hc, hr]⟩)

/-- Claim C3: delete and rename never issue their primary action (Remove
respectively Set) while the mapped VM state is outside the STOPPED set, and
when the VM starts RUNNING a stop action precedes the primary action in the
trace of issued actions. -/
theorem delete_rename_stopped_guard (cur : VmState) (poll : Nat → VmState)
    (fuel : Nat) (newName : String) :
    (∀ e ∈ (SCVM_delete cur poll fuel).1, e.act = Act.removeA →
      e.stateAt = VmState.STOPPED) ∧
    (cur = VmState.RUNNING →
      (∃ e ∈ (SCVM_delete cur poll fuel).1, e.act = Act.removeA) →
      List.Sublist [⟨Act.stopA, VmState.RUNNING⟩, ⟨Act.removeA, VmState.STOPPED⟩]
        (SCVM_delete cur poll fuel).1) ∧
    (∀ e ∈ (SCVM_rename cur poll fuel newName).1, e.act = Act.setNameA newName →
      e.stateAt = VmState.STOPPED) ∧
    (cur = VmState.RUNNING →
      (∃ e ∈ (SCVM_rename cur poll fuel newName).1, e.act = Act.setNameA newName) →
      List.Sublist
        [⟨Act.stopA, VmState.RUNNING⟩, ⟨Act.setNameA newName, VmState.STOPPED⟩]
        (SCVM_rename cur poll fuel newName).1) := by
  refine ⟨?_, ?_, ?_, ?_⟩
  · rcases SCVM_delete_shape cur poll fuel with ⟨_, h⟩ | ⟨_, _, h⟩ | ⟨_, _, h⟩ <;>
      rw [h] <;> intro e he ha
    · rw [List.mem_singleton] at he; subst he; rfl
    · rcases List.mem_cons.mp he with h1 | h1
      · subst h1; simp at ha
      · rw [List.mem_singleton] at h1; subst h1; rfl
    · rw [List.mem_singleton] at he; subst he; simp at ha
  · intro hcur hex
    rcases SCVM_delete_shape cur poll fuel with ⟨hc, _⟩ | ⟨_, _, h⟩ | ⟨_, _, h⟩
    · rw [hcur] at hc; exact absurd hc (by simp)
    · rw [h, hcur]
    · rw [h] at hex
      simp at hex
  · rcases SCVM_rename_shape cur poll fuel newName with
      ⟨_, h⟩ | ⟨_, _, h⟩ | ⟨_, _, h⟩ <;>
      rw [h] <;> intro e he ha
    · rcases List.mem_cons.mp he with h1 | h1
      · subst h1; rfl
      · rw [List.mem_singleton] at h1; subst h1; simp at ha
    · rcases List.mem_cons.mp he with h1 | h1
      · subst h1; simp at ha
      · rcases List.mem_cons.mp h1 with h2 | h2
        · subst h2; rfl
        · rw [List.mem_singleton] at h2; subst h2; simp at ha
    · rw [List.mem_singleton] at he; subst he; simp at ha
  · intro hcur hex
    rcases SCVM_rename_shape cur poll fuel newName with
      ⟨hc, _⟩ | ⟨_, _, h⟩ | ⟨_, _, h⟩
    · rw [hcur] at hc; exact absurd hc (by simp)
    · rw [h, hcur]
      exact List.Sublist.cons₂ _ (List.Sublist.cons₂ _ (List.nil_sublist _))
    · rw [h] at hex
      simp at hex

/-- Witness for C3: a VM that starts RUNNING with a poll oracle that reports
STOPPED; the recorded trace shows the stop action before the remove action,
both issued with the guarded states. -/
theorem delete_rename_stopped_guard_witness :
    (∀ e ∈ (SCVM_delete VmState.RUNNING (fun _ => VmState.STOPPED) 1).1,
      e.act = Act.removeA → e.stateAt = VmState.STOPPED) ∧
    List.Sublist [⟨Act.stopA, VmState.RUNNING⟩, ⟨Act.removeA, VmState.STOPPED⟩]
      (SCVM_delete VmState.RUNNING (fun _ => VmState.STOPPED) 1).1 := by
  have h := delete_rename_stopped_guard VmState.RUNNING
    (fun _ => VmState.STOPPED) 1 "renamed"
  refine ⟨h.1, h.2.1 rfl ?_⟩
  exact ⟨⟨Act.removeA, VmState.STOPPED⟩, by decide, rfl⟩

/-- When every reply of the transport has exit code zero, _do_vm succeeds
with True whatever the command output was. -/
theorem do_vm_ok (exec : String → PSResult) (name action params : String)
    (h0 : ∀ s, (exec s).status_code = 0) :
    do_vm exec name action params = Except.ok true := by
  unfold do_vm run_script
  rw [if_neg (by simp [h0])]

/-- Claim C10: every basic lifecycle action (start, stop, restart, suspend,
delete) returns the constant True when its remote commands complete without
error, regardless of the output of the commands; the success value carries no
information about the resulting VM state. -/
theorem lifecycle_returns_true (exec : String → PSResult) (name : String)
    (isSuspended graceful : Bool)
    (h0 : ∀ s, (exec s).status_code = 0) :
    SCVM_start exec name isSuspended = Except.ok true ∧
    SCVM_stop exec name graceful = Except.ok true ∧
    SCVM_restart exec name = Except.ok true ∧
    SCVM_suspend exec name = Except.ok true ∧
    (∀ cur poll fuel b, (SCVM_delete cur poll fuel).2 = Except.ok b →
      b = true) := by
  refine ⟨?_, ?_, ?_, ?_, ?_⟩
  · unfold SCVM_start
    by_cases hs : isSuspended = true <;> simp [hs, do_vm_ok exec name _ _ h0]
  · exact do_vm_ok exec name _ _ h0
  · exact do_vm_ok exec name _ _ h0
  · exact do_vm_ok exec name _ _ h0
  · intro cur poll fuel b h
    rcases SCVM_delete_shape cur poll fuel with ⟨_, hd⟩ | ⟨_, _, hd⟩ | ⟨_, _, hd⟩ <;>
      rw [hd] at h <;> simp at h <;> simp [h]

/-- Witness for C10: a transport whose replies all exit zero but carry
arbitrary output; start and stop still return True, and a completed delete
returned True. -/
theorem lifecycle_returns_true_witness :
    SCVM_start (fun _ => ⟨0, "some output", "x"⟩) "vm" false = Except.ok true ∧
    SCVM_stop (fun _ => ⟨0, "some output", "x"⟩) "vm" true = Except.ok true ∧
    (true : Bool) = true := by
  have h := lifecycle_returns_true (fun _ => ⟨0, "some output", "x"⟩) "vm"
    false true (fun s => rfl)
  exact ⟨h.1, h.2.1,
    h.2.2.2.2 VmState.STOPPED (fun _ => VmState.STOPPED) 1 true rfl⟩

/-- Every command the status wait issues is a poll of the deployed VM. -/
theorem wait_vm_running_cmds (vm : String) :
    ∀ (fuel : Nat) (statuses : Nat → String) (c : RCmd),
      c ∈ (wait_vm_running vm statuses fuel).1 → c = RCmd.pollState vm := by
  intro fuel
  induction fuel with
  | zero => intro statuses c hc; simp [wait_vm_running] at hc
  | succ f ih =>
    intro statuses c hc
    rw [wait_vm_running] at hc
    by_cases hr : mapStatus (statuses 0) = VmState.RUNNING
    · rw [if_pos hr] at hc
      simpa using hc
    · rw [if_neg hr] at hc
      rcases List.mem_cons.mp hc with h1 | h1
      · exact h1
      · exact ih _ c h1

/-- When no poll within the budget observes RUNNING, the wait fails with
TimeoutError. -/
theorem wait_vm_running_timeout (vm : String) :
    ∀ (fuel : Nat) (statuses : Nat → String),
      (∀ i, i < fuel → mapStatus (statuses i) ≠ VmState.RUNNING) →
      (wait_vm_running vm statuses fuel).2 = Except.error Err.TimeoutError := by
  intro fuel
  induction fuel with
  | zero => intro statuses _; rfl
  | succ f ih =>
    intro statuses h
    have h0 : ¬ mapStatus (statuses 0) = VmState.RUNNING := h 0 (Nat.succ_pos f)
    rw [wait_vm_running, if_neg h0]
    exact ih (fun i => statuses (i + 1)) (fun i hi => h (i + 1) (Nat.succ_lt_succ hi))

/-- The status wait either succeeds or fails with TimeoutError. -/
theorem wait_vm_running_outcome (vm : String) :
    ∀ (fuel : Nat) (statuses : Nat → String),
      (wait_vm_running vm statuses fuel).2 = Except.ok () ∨
      (wait_vm_running vm statuses fuel).2 = Except.error Err.TimeoutError := by
  intro fuel
  induction fuel with
  | zero => intro statuses; exact Or.inr rfl
  | succ f ih =>
    intro statuses
    by_cases hr : mapStatus (statuses 0) = VmState.RUNNING
    · rw [wait_vm_running, if_pos hr]
      exact Or.inl rfl
    · rw [wait_vm_running, if_neg hr]
      exact ih (fun i => statuses (i + 1))

/-- Claim C4: deploying from a template whose existence check fails raises
the template-not-found failure and issues no mutating remote command at all;
the only issued command is the read-only existence lookup. -/
theorem deploy_template_missing (lookup : String → String)
    (statuses : Nat → String) (t hg vm : String) (kw : DeployKw)
    (h : does_template_exist lookup t = false) :
    deploy_template lookup statuses t hg vm kw =
      ([RCmd.getTemplate t], Except.error (TemplateNotFoundError t)) ∧
    ∀ c ∈ (deploy_template lookup statuses t hg vm kw).1, mutating c = false := by
  have hd : deploy_template lookup statuses t hg vm kw =
      ([RCmd.getTemplate t], Except.error (TemplateNotFoundError t)) := by
    simp [deploy_template, h]
  refine ⟨hd, ?_⟩
  rw [hd]
  intro c hc
  rw [List.mem_singleton] at hc
  subst hc
  rfl

/-- Witness for C4: an empty lookup reply makes the check fail; the outcome
is the not-found error and the only command is the read-only lookup. -/
theorem deploy_template_missing_witness :
    deploy_template (fun _ => "") (fun _ => "Running") "tpl" "hg" "vm"
      ⟨900, 0, 0⟩ =
      ([RCmd.getTemplate "tpl"], Except.error (TemplateNotFoundError "tpl")) ∧
    mutating (RCmd.getTemplate "tpl") = false := by
  have h := deploy_template_missing (fun _ => "") (fun _ => "Running")
    "tpl" "hg" "vm" ⟨900, 0, 0⟩ rfl
  exact ⟨h.1, rfl⟩

/-- Claim C5: deploying from an existing template issues the creation command
exactly once, then enables the guest integration service, starts the VM and
polls; when no poll observes RUNNING within the timeout the operation fails
with TimeoutError (creation still issued exactly once); when it returns a
name, the name is the VM name and the trace is the creation sequence, then
polls, ending with the refresh of the cached view. -/
theorem deploy_template_existing (lookup : String → String)
    (statuses : Nat → String) (t hg vm : String) (kw : DeployKw)
    (hex : does_template_exist lookup t = true) :
    ((deploy_template lookup statuses t hg vm kw).1.countP isCreate = 1) ∧
    ((∀ i, i < kw.timeout → mapStatus (statuses i) ≠ VmState.RUNNING) →
      (deploy_template lookup statuses t hg vm kw).2 =
        Except.error Err.TimeoutError) ∧
    (∀ name, (deploy_template lookup statuses t hg vm kw).2 = Except.ok name →
      name = vm ∧ ∃ polls, (∀ c ∈ polls, c = RCmd.pollState vm) ∧
        (deploy_template lookup statuses t hg vm kw).1 =
          [RCmd.getTemplate t, RCmd.createVM t hg vm kw.cpu kw.ram,
           RCmd.enableGuestServices vm, RCmd.startVM vm] ++ polls
            ++ [RCmd.readVM vm]) := by
  have hwc : (wait_vm_running vm statuses kw.timeout).1.countP isCreate = 0 := by
    rw [List.countP_eq_zero]
    intro c hc
    rw [wait_vm_running_cmds vm kw.timeout statuses c hc]
    simp [isCreate]
  rcases wait_vm_running_outcome vm kw.timeout statuses with hw | hw
  · have hd : deploy_template lookup statuses t hg vm kw =
        ([RCmd.getTemplate t, RCmd.createVM t hg vm kw.cpu kw.ram,
          RCmd.enableGuestServices vm, RCmd.startVM vm]
          ++ (wait_vm_running vm statuses kw.timeout).1
          ++ [RCmd.readVM vm], Except.ok vm) := by
      simp [deploy_template, hex, hw]
    refine ⟨?_, ?_, ?_⟩
    · rw [hd]
      simp [List.countP_append, List.countP_cons, isCreate, hwc]
    · intro hti
      have := wait_vm_running_timeout vm kw.timeout statuses hti
      rw [hw] at this
      exact absurd this (by simp)
    · intro name hname
      rw [hd] at hname
      simp only [Except.ok.injEq] at hname
      subst hname
      exact ⟨rfl, (wait_vm_running vm statuses kw.timeout).1,
        fun c hc => wait_vm_running_cmds vm kw.timeout statuses c hc,
        by rw [hd]⟩
  · have hd : deploy_template lookup statuses t hg vm kw =
        ([RCmd.getTemplate t, RCmd.createVM t hg vm kw.cpu kw.ram,
          RCmd.enableGuestServices vm, RCmd.startVM vm]
          ++ (wait_vm_running vm statuses kw.timeout).1,
          Except.error Err.TimeoutError) := by
      simp [deploy_template, hex, hw]
    refine ⟨?_, ?_, ?_⟩
    · rw [hd]
      simp [List.countP_append, List.countP_cons, isCreate, hwc]
    · intro _
      rw [hd]
    · intro name hname
      rw [hd] at hname
      simp at hname

/-- Witness for C5: with a ready manager the creation command appears exactly
once, and with a manager that never reports RUNNING the deployment times
out. -/
theorem deploy_template_existing_witness :
    (deploy_template (fun _ => "x") (fun _ => "Running") "tpl" "hg" "vm"
      ⟨2, 0, 0⟩).1.countP isCreate = 1 ∧
    (deploy_template (fun _ => "x") (fun _ => "PowerOff") "tpl" "hg" "vm"
      ⟨2, 0, 0⟩).2 = Except.error Err.TimeoutError := by
  constructor
  · exact (deploy_template_existing (fun _ => "x") (fun _ => "Running")
      "tpl" "hg" "vm" ⟨2, 0, 0⟩ rfl).1
  · exact (deploy_template_existing (fun _ => "x") (fun _ => "PowerOff")
      "tpl" "hg" "vm" ⟨2, 0, 0⟩ rfl).2.1 (fun i _ => by decide)

/-- Claim C7: template delete is a no-op beyond the read-only existence
lookup when the template does not exist, and otherwise issues the forced
removal followed by the library refresh. -/
theorem delete_template_spec (lookup : String → String) (t : String) :
    (does_template_exist lookup t = false →
      delete_template lookup t = [RCmd.getTemplate t] ∧
      ∀ c ∈ delete_template lookup t, mutating c = false) ∧
    (does_template_exist lookup t = true →
      delete_template lookup t =
        [RCmd.getTemplate t, RCmd.removeTemplate t true, RCmd.refreshLibrary]) := by
  constructor
  · intro h
    have hd : delete_template lookup t = [RCmd.getTemplate t] := by
      simp [delete_template, h]
    refine ⟨hd, ?_⟩
    rw [hd]
    intro c hc
    rw [List.mem_singleton] at hc
    subst hc
    rfl
  · intro h
    simp [delete_template, h]

/-- Witness for C7: an absent template leaves only the lookup; a present one
is removed with force and the library is then refreshed. -/
theorem delete_template_spec_witness :
    delete_template (fun _ => "") "tpl" = [RCmd.getTemplate "tpl"] ∧
    delete_template (fun _ => "present") "tpl" =
      [RCmd.getTemplate "tpl", RCmd.removeTemplate "tpl" true,
       RCmd.refreshLibrary] := by
  exact ⟨((delete_template_spec (fun _ => "") "tpl").1 rfl).1,
    (delete_template_spec (fun _ => "present") "tpl").2 rfl⟩

/-- Invariant of the DVD disconnect loop, generalized over the start
index. -/
theorem disconnect_dvd_aux (vm : String) (present : Nat → Bool) :
    ∀ (fuel k : Nat) (tr : List RCmd) (n : Nat),
      disconnect_dvd_drives vm present k fuel = some (tr, n) →
      k ≤ n ∧ present n = false ∧
      (∀ j, k ≤ j → j < n → present j = true) ∧
      tr.countP isRemoveDVD = n - k := by
  intro fuel
  induction fuel with
  | zero => intro k tr n h; simp [disconnect_dvd_drives] at h
  | succ f ih =>
    intro k tr n h
    rw [disconnect_dvd_drives] at h
    by_cases hk : present k = true
    · rw [if_pos hk] at h
      cases hrec : disconnect_dvd_drives vm present (k + 1) f with
      | none => rw [hrec] at h; simp at h
      | some r =>
        rw [hrec] at h
        simp only [Option.map_some', Option.some.injEq, Prod.mk.injEq] at h
        obtain ⟨htr, hn⟩ := h
        rcases ih (k + 1) r.1 r.2 (by rw [hrec]) with ⟨hle, hnf, hall, hcount⟩
        subst htr
        subst hn
        refine ⟨Nat.le_of_succ_le hle, hnf, ?_, ?_⟩
        · intro j hkj hjn
          rcases Nat.eq_or_lt_of_le hkj with heq | hlt
          · rw [← heq]; exact hk
          · exact hall j hlt hjn
        · simp [List.countP_cons, isRemoveDVD, hcount]
          omega
    · rw [if_neg hk] at h
      simp only [Option.some.injEq, Prod.mk.injEq] at h
      obtain ⟨htr, hn⟩ := h
      subst htr
      subst hn
      refine ⟨Nat.le_refl k, by simpa using hk, ?_, by simp [isRemoveDVD]⟩
      intro j hkj hjk
      exact absurd hkj (Nat.not_le_of_lt hjk)

/-- Claim C8: the DVD disconnect loop issues one removal command per
iteration with no upper bound, terminating only when a data query reports no
remaining drive (the count of removals equals the number of iterations in
which a drive was present); and when the oracle reports a drive forever, the
loop never terminates within any fuel bound. -/
theorem disconnect_dvd_unbounded (vm : String) (present : Nat → Bool) :
    (∀ fuel tr n, disconnect_dvd_drives vm present 0 fuel = some (tr, n) →
      present n = false ∧ (∀ j, j < n → present j = true) ∧
      tr.countP isRemoveDVD = n) ∧
    ((∀ k, present k = true) → ∀ fuel k,
      disconnect_dvd_drives vm present k fuel = Option.none) := by
  constructor
  · intro fuel tr n h
    rcases disconnect_dvd_aux vm present fuel 0 tr n h with ⟨_, h1, h2, h3⟩
    exact ⟨h1, fun j hj => h2 j (Nat.zero_le j) hj, by simpa using h3⟩
  · intro hall fuel
    induction fuel with
    | zero => intro k; rfl
    | succ f ih =>
      intro k
      rw [disconnect_dvd_drives, if_pos (hall k), ih (k + 1)]
      rfl

/-- Witness for C8: with drives present for the first two queries the loop
exits after exactly two removals; with drives present forever it never
terminates within the given budget. -/
theorem disconnect_dvd_unbounded_witness :
    ((fun j => decide (j < 2)) 2 = false ∧
      (∀ j, j < 2 → (fun j => decide (j < 2)) j = true) ∧
      ([RCmd.getVMData "vm", RCmd.removeDVD "vm", RCmd.getVMData "vm",
        RCmd.removeDVD "vm", RCmd.getVMData "vm"] : List RCmd).countP
        isRemoveDVD = 2) ∧
    disconnect_dvd_drives "vm" (fun _ => true) 0 3 = Option.none := by
  constructor
  · exact (disconnect_dvd_unbounded "vm" (fun j => decide (j < 2))).1 5
      [RCmd.getVMData "vm", RCmd.removeDVD "vm", RCmd.getVMData "vm",
       RCmd.removeDVD "vm", RCmd.getVMData "vm"] 2 rfl
  · exact (disconnect_dvd_unbounded "vm" (fun _ => true)).2 (fun k => rfl) 3 0

end Scvmm
